import Mathlib

/-!
Shallow embedding of the i18next/TanStack-Query HTTP backend core:
the error classifier (`I18nextErrorHandler` in `src/unnamed/part_002`),
the request builder (`TanStackI18nextBackend.buildFetchOptions`), the
callback shim (`requestWithCallback` / `processForCallback`), the
constructor defaults, the cache-key factories (`src/lib/tanstack/query-keys.ts`
and the `queryKeys` in `src/lib/react-native-config.ts`), and the cache
type guards (`isQueryClientAvailable` / `isTanstackQueryEnabled`).

JavaScript conventions used throughout the embedding:
* an absent (`undefined`) field is `Option.none`;
* numeric truthiness (`0` is falsy) is `numTruthy`;
* string truthiness (`""` is falsy) is `strTruthy`;
* `a || b` on optional numbers is `jsOrNum`;
* a JS object used as a header map is modelled as the list of its
  assignments, read back with last-assignment-wins lookup (`getHeader`),
  which matches JS object read semantics.
-/

namespace I18nextBackend

/-- JS truthiness of an optional number: absent and `0` are falsy. -/
def numTruthy : Option Int → Bool
  | none => false
  | some n => n != 0

/-- JS `a || b` over optional numbers: keeps `a` when truthy, else `b`. -/
def jsOrNum : Option Int → Option Int → Option Int
  | some n, b => if n = 0 then b else some n
  | none, b => b

/-- JS truthiness of an optional string: absent and `""` are falsy. -/
def strTruthy : Option String → Bool
  | none => false
  | some s => s != ""

/-- JS `o >= n` where `o` may be `undefined` (comparison with `undefined` is false). -/
def optGe (o : Option Int) (n : Int) : Bool :=
  match o with
  | some m => decide (n ≤ m)
  | none => false

/-- JS `o < n` where `o` may be `undefined` (comparison with `undefined` is false). -/
def optLt (o : Option Int) (n : Int) : Bool :=
  match o with
  | some m => decide (m < n)
  | none => false

/-- JS template interpolation of a possibly-undefined number. -/
def statusToString : Option Int → String
  | some n => toString n
  | none => "undefined"

/-- Check whether the character list is an initial segment of the second list. -/
def startsWithSeq : List Char → List Char → Bool
  | [], _ => true
  | _ :: _, [] => false
  | p :: ps, c :: cs => p == c && startsWithSeq ps cs

/-- Check whether `pat` occurs contiguously anywhere in the second list. -/
def containsSeq (pat : List Char) : List Char → Bool
  | [] => startsWithSeq pat []
  | c :: cs => startsWithSeq pat (c :: cs) || containsSeq pat cs

/-- JS `s.includes(pat)`, modelled on the character lists of the strings. -/
def strContains (s pat : String) : Bool := containsSeq pat.data s.data

/-- JS `s.toLowerCase()`, modelled character-wise. -/
def strToLower (s : String) : String := String.mk (s.data.map Char.toLower)

/-- Raw `response` object optionally hanging off a raw fetch error
(`error.response?.status` in `transformError`, part_002:295). -/
structure RawResponse where
  status : Option Int := none
deriving DecidableEq, Repr

/-- Raw error value reaching `I18nextErrorHandler.transformError`
(part_002:289): any JS value with optional `response`, `status`,
`message` and `name` properties. -/
structure RawError where
  response : Option RawResponse := none
  status : Option Int := none
  message : Option String := none
  name : Option String := none
deriving DecidableEq, Repr

/-- Normalized i18next error produced by `transformError`: the `I18nextError`
shape with `url`, optional `status`, `message` and the `retry` flag. -/
structure I18nextErrorRec where
  url : String
  status : Option Int := none
  message : String
  retry : Bool
deriving DecidableEq, Repr

/-- Fixed network-failure terms checked by `transformError` (part_002:314-321). -/
def networkErrorTerms : List String :=
  ["failed", "fetch", "network", "load", "timeout", "abort"]

/-- JS `error.response?.status || error.status` (part_002:295). -/
def effectiveStatus (error : RawError) : Option Int :=
  jsOrNum (error.response.bind RawResponse.status) error.status

/-- Tail of `transformError` after the status-range branches (part_002:311-345):
the network-term check, the parse-error check, and the default case. `st` is
the `status` field already stored on the error being built (it is only
assigned inside the status guard, part_002:296). -/
def transformErrorRest (error : RawError) (url : String) (st : Option Int) :
    I18nextErrorRec :=
  if strTruthy error.message
      && networkErrorTerms.any
        (fun term => strContains (strToLower (error.message.getD "")) term) then
    { url := url, status := st,
      message := "failed loading " ++ url ++ ": " ++ error.message.getD "",
      retry := true }
  else if error.name == some "SyntaxError"
      || (match error.message with
          | some m => strContains m "JSON"
          | none => false) then
    { url := url, status := st,
      message := "failed parsing " ++ url ++ " to json", retry := false }
  else
    { url := url, status := st,
      message := match error.message with
        | some m => if m = "" then "Unknown error occurred" else m
        | none => "Unknown error occurred",
      retry := false }

/-- Embedding of `I18nextErrorHandler.transformError` (part_002:289-346). -/
def transformError (error : RawError) (url : String) : I18nextErrorRec :=
  if error.response.isSome || numTruthy error.status then
    let status := effectiveStatus error
    if optGe status 500 && optLt status 600 then
      { url := url, status := status,
        message := "failed loading " ++ url ++ "; status code: "
          ++ statusToString status,
        retry := true }
    else if optGe status 400 && optLt status 500 then
      { url := url, status := status,
        message := "failed loading " ++ url ++ "; status code: "
          ++ statusToString status,
        retry := false }
    else
      transformErrorRest error url status
  else
    transformErrorRest error url none

/-- Embedding of `I18nextErrorHandler.shouldRetry` (part_002:353-355). -/
def shouldRetry (error : I18nextErrorRec) : Bool := error.retry

/-- Embedding of `I18nextErrorHandler.getRetryDelay` (part_002:362-365):
`Math.min(1000 * Math.pow(2, attemptIndex), 30000)`. -/
def getRetryDelay (attemptIndex : Nat) : Nat :=
  min (1000 * 2 ^ attemptIndex) 30000

/-- Parse-failure error constructed by `createQueryFn` when the response body
fails to parse as JSON (part_002:145-150): message
`Failed to parse response from <url>` and name `SyntaxError`. -/
def parseFailureError (url : String) : RawError :=
  { name := some "SyntaxError",
    message := some ("Failed to parse response from " ++ url) }

/-- Result of `processForCallback`: the value handed to the callback's error
slot (`null` or the message string) and the retry verdict. -/
structure ProcessedError where
  error : Option String
  retry : Bool
deriving DecidableEq, Repr

/-- Embedding of `I18nextErrorHandler.processForCallback` (part_002:373-398).
The input is `none` for a falsy thrown value and `some e` otherwise. -/
def processForCallback : Option I18nextErrorRec → ProcessedError
  | none => { error := none, retry := false }
  | some error =>
    if error.retry then
      { error := some error.message, retry := true }
    else if numTruthy error.status && optGe error.status 400
        && optLt error.status 500 then
      { error := some error.message, retry := false }
    else if numTruthy error.status && optGe error.status 500
        && optLt error.status 600 then
      { error := some error.message, retry := true }
    else
      { error := some error.message, retry := false }

/-- Response shape `{status, data}` (`I18nextResponse`); `data` is absent on
the `{status: 0}` retry sentinel, so it is optional here. -/
structure I18nextResponse where
  status : Int
  data : Option String := none
deriving DecidableEq, Repr

/-- Embedding of `TanStackI18nextBackend.requestWithCallback`
(part_002:166-184), abstracted over the outcome of the awaited `request`
call: on success the callback gets `(null, response)`; on failure the error
is processed by `processForCallback` and the callback gets the processed
error value plus either the `{status: 0}` sentinel (retry signaled) or
`null`. The returned pair is the argument pair passed to the callback. -/
def requestWithCallback (outcome : Except I18nextErrorRec I18nextResponse) :
    Option String × Option I18nextResponse :=
  match outcome with
  | .ok response => (none, some response)
  | .error error =>
    let processedError := processForCallback (some error)
    (processedError.error,
      if processedError.retry then some { status := 0, data := none } else none)

/-- Claim-side predicate for C7: retry was signaled, i.e. the normalized
error's retry flag is set or it carries a 5xx status. -/
def retrySignaled (error : I18nextErrorRec) : Bool :=
  error.retry || (optGe error.status 500 && optLt error.status 600)

/-- Header maps are JS objects; a map value is modelled as the sequence of
assignments made to it, read back with `getHeader` (last assignment wins,
matching JS object reads). -/
def getHeader (headers : List (String × String)) (key : String) : Option String :=
  headers.foldl (fun acc kv => if kv.1 == key then some kv.2 else acc) none

/-- JS `headers[key] = value`: one further assignment on the object. -/
def setHeader (headers : List (String × String)) (key value : String) :
    List (String × String) :=
  headers ++ [(key, value)]

/-- JS `Object.assign(base, extra)` / `{...base, ...extra}` on header
objects: every entry of `extra` is assigned on top of `base`. -/
def assignHeaders (base extra : List (String × String)) :
    List (String × String) :=
  base ++ extra

/-- The `customHeaders` option: a static header object or a zero-argument
function producing one (`I18nextRequestOptions.customHeaders`). -/
inductive HeadersSpec where
  | static (h : List (String × String))
  | computed (f : Unit → List (String × String))

/-- Resolve `customHeaders` as `buildFetchOptions` does (part_002:61-64):
call it when it is a function, otherwise use it as-is. -/
def resolveCustomHeaders : Option HeadersSpec → Option (List (String × String))
  | none => none
  | some (.static h) => some h
  | some (.computed f) => some (f ())

/-- A `RequestInit` override object (`requestOptions`): every property is
optional; a present property overrides the built value by the trailing
spread in `buildFetchOptions` (part_002:93-105). -/
structure RequestInitJS where
  method : Option String := none
  headers : Option (List (String × String)) := none
  body : Option String := none
  credentials : Option String := none
  mode : Option String := none
deriving DecidableEq, Repr

/-- The `requestOptions` option: a static `RequestInit` or a function of the
payload producing one. -/
inductive RequestOptionsSpec (α : Type) where
  | static (r : RequestInitJS)
  | func (f : Option α → RequestInitJS)

/-- Resolve `requestOptions` as `buildFetchOptions` does (part_002:88-91):
call it on the payload when it is a function, else `requestOptions || {}`. -/
def resolveRequestOptions {α : Type} :
    Option (RequestOptionsSpec α) → Option α → RequestInitJS
  | none, _ => {}
  | some (.static r), _ => r
  | some (.func f), payload => f payload

/-- The `tanstackQuery.retry` option: a count or a boolean. -/
inductive RetrySetting where
  | num (n : Int)
  | flag (b : Bool)
deriving DecidableEq, Repr

/-- Nested cache configuration (`TanStackQueryOptions`); every field is
optional. `retryDelay` is a number-of-attempts ↦ milliseconds function. -/
structure TanStackQueryOpts where
  enabled : Option Bool := none
  staleTime : Option Int := none
  cacheTime : Option Int := none
  retry : Option RetrySetting := none
  retryDelay : Option (Nat → Nat) := none
  refetchOnWindowFocus : Option Bool := none
  refetchOnReconnect : Option Bool := none

/-- Backend options (`I18nextRequestOptions`), restricted to the fields the
claims exercise. `queryClientPresent` records whether the external
cache-client handle `queryClient` was supplied (it is only ever tested for
presence by this code). `withCredentials`/`crossDomain` record the JS
truthiness of those flags. `payload` values have type `α`; a payload that is
passed is a JS object and hence truthy. -/
structure BackendOptions (α : Type) where
  customHeaders : Option HeadersSpec := none
  requestOptions : Option (RequestOptionsSpec α) := none
  stringify : Option (α → String) := none
  withCredentials : Bool := false
  crossDomain : Bool := false
  tanstackQuery : Option TanStackQueryOpts := none
  queryClientPresent : Bool := false

/-- Host-environment facts probed by `buildFetchOptions` (part_002:70-80):
whether this is a Node environment, and the `User-Agent` string built from
`process.version`/`platform`/`arch` there. -/
structure JsEnv where
  isNode : Bool := false
  nodeUserAgent : String := ""

/-- Concrete request produced by `buildFetchOptions`: all fields present. -/
structure BuiltRequest where
  method : String
  headers : List (String × String)
  body : Option String
  credentials : String
  mode : String
deriving DecidableEq, Repr

/-- Embedding of `TanStackI18nextBackend.buildFetchOptions` (part_002:57-106).
`jsonStringify` is the host's `JSON.stringify` for payloads. The source
builds a `headers` object (custom headers, then the Node `User-Agent`, then
`Content-Type` for a payload), resolves `requestOptions`, and returns the
object literal whose trailing `...requestOptions` spread lets every present
override property win — including `headers`, which then replaces the merged
header object wholesale. -/
def buildFetchOptions {α : Type} (env : JsEnv) (jsonStringify : α → String)
    (options : BackendOptions α) (payload : Option α) : BuiltRequest :=
  let headers0 : List (String × String) := []
  let headers1 := match resolveCustomHeaders options.customHeaders with
    | some custom => assignHeaders headers0 custom
    | none => headers0
  let headers2 := if env.isNode then
      setHeader headers1 "User-Agent" env.nodeUserAgent
    else headers1
  let headers3 := if payload.isSome then
      setHeader headers2 "Content-Type" "application/json"
    else headers2
  let requestOptions := resolveRequestOptions options.requestOptions payload
  let mergedHeaders :=
    assignHeaders headers3 (requestOptions.headers.getD [])
  { method := requestOptions.method.getD
      (if payload.isSome then "POST" else "GET"),
    headers := requestOptions.headers.getD mergedHeaders,
    body := match requestOptions.body with
      | some b => some b
      | none => payload.map fun p => (options.stringify.getD jsonStringify) p,
    credentials := requestOptions.credentials.getD
      (if options.withCredentials then "include" else "same-origin"),
    mode := requestOptions.mode.getD
      (if options.crossDomain then "cors" else "same-origin") }

/-- Default `tanstackQuery` configuration installed by the
`TanStackI18nextBackend` constructor (part_002:23-31). -/
def defaultTanstackQuery : TanStackQueryOpts :=
  { enabled := some true,
    staleTime := some (5 * 60 * 1000),
    cacheTime := some (10 * 60 * 1000),
    retry := some (.num 3),
    retryDelay := some getRetryDelay,
    refetchOnWindowFocus := some false,
    refetchOnReconnect := some true }

/-- Embedding of the `TanStackI18nextBackend` constructor's option merge
(part_002:21-33): `{ tanstackQuery: defaults, ...options }` — every field
supplied in `options` wins, and the default `tanstackQuery` object is used
only when `options` does not carry its own. -/
def constructedOptions {α : Type} (options : BackendOptions α) :
    BackendOptions α :=
  { options with
    tanstackQuery := some (options.tanstackQuery.getD defaultTanstackQuery) }

/-- Embedding of `isQueryClientAvailable` (react-native-config.ts:560-564):
`!!(options.queryClient && options.tanstackQuery?.enabled !== false)`. -/
def isQueryClientAvailable {α : Type} (options : BackendOptions α) : Bool :=
  options.queryClientPresent &&
    (match options.tanstackQuery.bind TanStackQueryOpts.enabled with
     | some false => false
     | _ => true)

/-- Embedding of `isTanstackQueryEnabled` (react-native-config.ts:566-570):
`!!(options.tanstackQuery?.enabled && options.queryClient)`. -/
def isTanstackQueryEnabled {α : Type} (options : BackendOptions α) : Bool :=
  (options.tanstackQuery.bind TanStackQueryOpts.enabled == some true) &&
    options.queryClientPresent

/-- Modelled from the spec: the Resource Loader's path dispatch lives in the
package entry point, which is not among the sources; per the spec, the
cache-backed path is taken exactly when the cache configuration is honored
(`isTanstackQueryEnabled`), and otherwise the direct-transport path runs
silently. The load's observable outcome is whichever path's outcome. -/
def loaderOutcome {α : Type} (options : BackendOptions α)
    (directOutcome cachedOutcome : Except I18nextErrorRec I18nextResponse) :
    Except I18nextErrorRec I18nextResponse :=
  if isTanstackQueryEnabled options then cachedOutcome else directOutcome

/-- One element of a structured cache key: a string literal (namespace tag,
operation tag, or URL) or a payload slot, which may be `undefined`. -/
inductive KeyPart (α : Type) where
  | str (s : String)
  | pay (p : Option α)
deriving DecidableEq, Repr

namespace QueryKeysTs

/-- Embedding of `queryKeys.all` in `src/lib/tanstack/query-keys.ts`. -/
def all (α : Type) : List (KeyPart α) := [.str "i18next"]

/-- Embedding of `queryKeys.load` in `src/lib/tanstack/query-keys.ts`:
`['i18next', 'load', url]`. -/
def load (α : Type) (url : String) : List (KeyPart α) :=
  [.str "i18next", .str "load", .str url]

/-- Embedding of `queryKeys.create` in `src/lib/tanstack/query-keys.ts`:
`['i18next', 'save', url, payload]` with an optional payload. -/
def create (α : Type) (url : String) (payload : Option α) : List (KeyPart α) :=
  [.str "i18next", .str "save", .str url, .pay payload]

end QueryKeysTs

namespace QueryKeysRN

/-- Embedding of `queryKeys.all` in `src/lib/react-native-config.ts:550`. -/
def all (α : Type) : List (KeyPart α) := [.str "i18next"]

/-- Embedding of `queryKeys.loads` (react-native-config.ts:551). -/
def loads (α : Type) : List (KeyPart α) := all α ++ [.str "load"]

/-- Embedding of `queryKeys.load` (react-native-config.ts:552-553):
`[...queryKeys.loads(), url, payload]` with an optional payload. -/
def load (α : Type) (url : String) (payload : Option α) : List (KeyPart α) :=
  loads α ++ [.str url, .pay payload]

/-- Embedding of `queryKeys.creates` (react-native-config.ts:554). -/
def creates (α : Type) : List (KeyPart α) := all α ++ [.str "create"]

/-- Embedding of `queryKeys.create` (react-native-config.ts:555-556):
`[...queryKeys.creates(), url, payload]`. -/
def create (α : Type) (url : String) (payload : Option α) : List (KeyPart α) :=
  creates α ++ [.str url, .pay payload]

end QueryKeysRN

/-! Helper lemmas shared by the claim proofs. -/

/-- Reading a key right after assigning it yields the assigned value. -/
theorem getHeader_append_self (hs : List (String × String)) (k v : String) :
    getHeader (hs ++ [(k, v)]) k = some v := by
  simp [getHeader, List.foldl_append]

/-- An initial-segment match is preserved by lowering both sides. -/
theorem startsWithSeq_map_toLower (p l : List Char)
    (h : startsWithSeq p l = true) :
    startsWithSeq (p.map Char.toLower) (l.map Char.toLower) = true := by
  induction p generalizing l with
  | nil => simp [startsWithSeq]
  | cons x xs ih =>
    cases l with
    | nil => simp [startsWithSeq] at h
    | cons c cs =>
      simp only [startsWithSeq, Bool.and_eq_true, beq_iff_eq] at h
      simp only [List.map_cons, startsWithSeq, Bool.and_eq_true, beq_iff_eq]
      exact ⟨by rw [h.1], ih cs h.2⟩

/-- A substring occurrence is preserved by lowering both sides. -/
theorem containsSeq_map_toLower (p l : List Char) (h : containsSeq p l = true) :
    containsSeq (p.map Char.toLower) (l.map Char.toLower) = true := by
  induction l with
  | nil =>
    simp only [containsSeq] at h ⊢
    exact startsWithSeq_map_toLower _ _ h
  | cons c cs ih =>
    simp only [containsSeq, List.map_cons, Bool.or_eq_true] at h ⊢
    rcases h with h | h
    · exact Or.inl (by simpa using startsWithSeq_map_toLower p (c :: cs) h)
    · exact Or.inr (ih h)

/-- Containment of a fixed (all-lowercase) network term survives
`toLowerCase` on the searched string. -/
theorem strContains_toLower_of_strContains (s term : String)
    (hterm : term ∈ networkErrorTerms) (h : strContains s term = true) :
    strContains (strToLower s) term = true := by
  have hmap := containsSeq_map_toLower term.data s.data h
  have hfix : term.data.map Char.toLower = term.data := by
    fin_cases hterm <;> decide
  unfold strContains strToLower
  rw [← hfix]
  simpa using hmap

/-- A string containing one of the (nonempty) network terms is nonempty. -/
theorem ne_empty_of_strContains (s term : String)
    (hterm : term ∈ networkErrorTerms) (h : strContains s term = true) :
    s ≠ "" := by
  intro he
  subst he
  fin_cases hterm <;> exact absurd h (by decide)

/-- An effective status that is a nonzero number can only arise when the
raw error carries a response object or a truthy status. -/
theorem guard_of_effectiveStatus (error : RawError) (n : Int) (hn : n ≠ 0)
    (h : effectiveStatus error = some n) :
    (error.response.isSome || numTruthy error.status) = true := by
  cases hrs : error.response with
  | some r => simp [hrs]
  | none =>
    unfold effectiveStatus jsOrNum at h
    rw [hrs] at h
    simp only [Option.none_bind] at h
    simp [hrs, numTruthy, h, hn]

/-- The error slot handed back by `processForCallback` is always the
normalized error's message. -/
theorem processForCallback_error_eq (e : I18nextErrorRec) :
    (processForCallback (some e)).error = some e.message := by
  simp only [processForCallback]
  repeat' split
  all_goals rfl

/-- The retry verdict of `processForCallback` coincides with the
retry-signaled predicate: retry flag set, or a 5xx status. -/
theorem processForCallback_retry_eq (e : I18nextErrorRec) :
    (processForCallback (some e)).retry = retrySignaled e := by
  simp only [processForCallback, retrySignaled]
  cases hr : e.retry with
  | true => simp [hr]
  | false =>
    simp only [hr, Bool.false_eq_true, if_false, Bool.false_or]
    cases hs : e.status with
    | none => simp [numTruthy, optGe, optLt, hs]
    | some n =>
      simp only [hs, numTruthy, optGe, optLt]
      split_ifs with h1 h2
      · simp only [Bool.and_eq_true, bne_iff_ne, decide_eq_true_eq] at h1
        have hlt : ¬ 500 ≤ n := by omega
        simp [hlt]
      · simp only [Bool.and_eq_true, bne_iff_ne, decide_eq_true_eq] at h2
        simp [h2.1.2, h2.2]
      · by_cases hge : 500 ≤ n
        · by_cases hlt : n < 600
          · refine absurd ?_ h2
            have hn0 : n ≠ 0 := by omega
            simp only [Bool.and_eq_true, bne_iff_ne, decide_eq_true_eq]
            exact ⟨⟨hn0, hge⟩, hlt⟩
          · simp [hlt]
        · simp [hge]

/-! Claim theorems. -/

/-- C3: `getRetryDelay i` equals `min (1000·2^i) 30000` milliseconds, is
deterministic in the attempt index, equals 1000 at attempt 0, doubles per
attempt while below the ceiling, is monotonically non-decreasing, never
exceeds 30000, and is capped to 30000 (not 32000) at attempt 5. -/
theorem c3_retry_delay_backoff (i j : Nat) (h : i ≤ j) :
    getRetryDelay i = min (1000 * 2 ^ i) 30000
    ∧ getRetryDelay 0 = 1000
    ∧ getRetryDelay 5 = 30000
    ∧ getRetryDelay i ≤ 30000
    ∧ getRetryDelay i ≤ getRetryDelay j
    ∧ (1000 * 2 ^ (i + 1) ≤ 30000 →
        getRetryDelay (i + 1) = 2 * getRetryDelay i) := by
  refine ⟨rfl, by decide, by decide, Nat.min_le_right _ _, ?_, ?_⟩
  · exact min_le_min
      (Nat.mul_le_mul_left _ (Nat.pow_le_pow_right (by decide) h))
      (Nat.le_refl _)
  · intro hcap
    have h1 : 1000 * 2 ^ (i + 1) = 2 * (1000 * 2 ^ i) := by ring
    have h2 : 1000 * 2 ^ i ≤ 30000 := by
      rw [h1] at hcap; omega
    unfold getRetryDelay
    rw [Nat.min_eq_left hcap, Nat.min_eq_left h2, h1]

/-- Witness for C3 at attempts 2 and 5. -/
theorem c3_retry_delay_backoff_witness :
    getRetryDelay 0 = 1000 ∧ getRetryDelay 5 = 30000
    ∧ getRetryDelay 2 ≤ getRetryDelay 5
    ∧ getRetryDelay (2 + 1) = 2 * getRetryDelay 2 := by
  obtain ⟨-, h0, h5, -, hmono, hdbl⟩ := c3_retry_delay_backoff 2 5 (by decide)
  exact ⟨h0, h5, hmono, hdbl (by decide)⟩

/-- C5: both cache-key factories are deterministic and injective — equal
URLs give structurally equal load keys; save/create keys with different
payloads differ; identical (operation kind, URL, payload) give the same
key and any difference in those fields gives a different key; load keys
never coincide with save/create keys. -/
theorem c5_query_keys_deterministic_injective (α : Type) :
    (∀ url : String, QueryKeysTs.load α url = QueryKeysTs.load α url)
    ∧ (∀ (url : String) (p q : Option α),
        QueryKeysTs.create α url p = QueryKeysTs.create α url q ↔ p = q)
    ∧ (∀ u v : String,
        QueryKeysTs.load α u = QueryKeysTs.load α v ↔ u = v)
    ∧ (∀ (u v : String) (p q : Option α),
        QueryKeysTs.create α u p = QueryKeysTs.create α v q ↔ u = v ∧ p = q)
    ∧ (∀ (u v : String) (p : Option α),
        QueryKeysTs.load α u ≠ QueryKeysTs.create α v p)
    ∧ (∀ (url : String) (p : Option α),
        QueryKeysRN.load α url p = QueryKeysRN.load α url p)
    ∧ (∀ (u v : String) (p q : Option α),
        QueryKeysRN.load α u p = QueryKeysRN.load α v q ↔ u = v ∧ p = q)
    ∧ (∀ (u v : String) (p q : Option α),
        QueryKeysRN.create α u p = QueryKeysRN.create α v q ↔ u = v ∧ p = q)
    ∧ (∀ (u v : String) (p q : Option α),
        QueryKeysRN.load α u p ≠ QueryKeysRN.create α v q) := by
  refine ⟨fun _ => rfl, ?_, ?_, ?_, ?_, fun _ _ => rfl, ?_, ?_, ?_⟩ <;>
    simp [QueryKeysTs.load, QueryKeysTs.create, QueryKeysRN.load,
      QueryKeysRN.create, QueryKeysRN.loads, QueryKeysRN.creates,
      QueryKeysRN.all, QueryKeysTs.all]

/-- C10: every key produced by the factories starts with the literal
`"i18next"`, and the load and save/create keys extend the `all` key
(`['i18next']`), so invalidation by that prefix covers them. -/
theorem c10_keys_share_i18next_root (α : Type) :
    (QueryKeysTs.all α).head? = some (.str "i18next")
    ∧ (∀ url : String,
        (QueryKeysTs.load α url).head? = some (.str "i18next"))
    ∧ (∀ (url : String) (p : Option α),
        (QueryKeysTs.create α url p).head? = some (.str "i18next"))
    ∧ (∀ url : String,
        QueryKeysTs.load α url = QueryKeysTs.all α ++ [.str "load", .str url])
    ∧ (∀ (url : String) (p : Option α),
        QueryKeysTs.create α url p
          = QueryKeysTs.all α ++ [.str "save", .str url, .pay p])
    ∧ (QueryKeysRN.all α).head? = some (.str "i18next")
    ∧ (∀ (url : String) (p : Option α),
        (QueryKeysRN.load α url p).head? = some (.str "i18next")
        ∧ QueryKeysRN.load α url p
          = QueryKeysRN.all α ++ [.str "load", .str url, .pay p])
    ∧ (∀ (url : String) (p : Option α),
        (QueryKeysRN.create α url p).head? = some (.str "i18next")
        ∧ QueryKeysRN.create α url p
          = QueryKeysRN.all α ++ [.str "create", .str url, .pay p]) :=
  ⟨rfl, fun _ => rfl, fun _ _ => rfl, fun _ => rfl, fun _ _ => rfl, rfl,
    fun _ _ => ⟨rfl, rfl⟩, fun _ _ => ⟨rfl, rfl⟩⟩

/-- C8 counterexample: constructed with no options at all, the resulting
`tanstackQuery` configuration has `enabled: true`, not the `enabled: false`
the claim states. -/
theorem c8_counterexample_enabled_true_by_default :
    (constructedOptions ({} : BackendOptions Unit)).tanstackQuery.map
        TanStackQueryOpts.enabled = some (some true)
    ∧ ¬ ((constructedOptions ({} : BackendOptions Unit)).tanstackQuery.map
        TanStackQueryOpts.enabled = some (some false)) :=
  ⟨rfl, by decide⟩

/-- C8 amended: when the backend is constructed with options carrying no
`tanstackQuery` configuration, the resulting configuration is exactly the
constructor's defaults — cache integration enabled (`enabled: true`),
freshness window 5 minutes, retention window 10 minutes, retry count 3,
exponential retry delay, refetch-on-focus false, refetch-on-reconnect
true. -/
theorem c8_constructor_defaults {α : Type} (options : BackendOptions α)
    (h : options.tanstackQuery = none) :
    (constructedOptions options).tanstackQuery = some defaultTanstackQuery
    ∧ defaultTanstackQuery.enabled = some true
    ∧ defaultTanstackQuery.staleTime = some (5 * 60 * 1000)
    ∧ defaultTanstackQuery.cacheTime = some (10 * 60 * 1000)
    ∧ defaultTanstackQuery.retry = some (.num 3)
    ∧ defaultTanstackQuery.retryDelay = some getRetryDelay
    ∧ defaultTanstackQuery.refetchOnWindowFocus = some false
    ∧ defaultTanstackQuery.refetchOnReconnect = some true := by
  refine ⟨?_, rfl, rfl, rfl, rfl, rfl, rfl, rfl⟩
  simp [constructedOptions, h]

/-- Witness for C8 at the empty options record. -/
theorem c8_constructor_defaults_witness :
    (constructedOptions ({} : BackendOptions Unit)).tanstackQuery
        = some defaultTanstackQuery
    ∧ defaultTanstackQuery.enabled = some true
    ∧ defaultTanstackQuery.staleTime = some (5 * 60 * 1000)
    ∧ defaultTanstackQuery.cacheTime = some (10 * 60 * 1000)
    ∧ defaultTanstackQuery.retry = some (.num 3)
    ∧ defaultTanstackQuery.retryDelay = some getRetryDelay
    ∧ defaultTanstackQuery.refetchOnWindowFocus = some false
    ∧ defaultTanstackQuery.refetchOnReconnect = some true :=
  c8_constructor_defaults {} rfl

/-- C6: the cache-backed path is taken iff both a true `enabled` flag and
the cache-client handle are present; with the handle absent, the nested
configuration absent, or the flag false, the loader silently takes the
direct path; and a loader with cache integration enabled but no client
handle has the same outcome as one with cache integration disabled. -/
theorem c6_cache_gating_and_fallback (α : Type) :
    (∀ options : BackendOptions α,
      isTanstackQueryEnabled options = true
        ↔ options.tanstackQuery.bind TanStackQueryOpts.enabled = some true
          ∧ options.queryClientPresent = true)
    ∧ (∀ (base : BackendOptions α)
        (d c : Except I18nextErrorRec I18nextResponse),
        loaderOutcome { base with queryClientPresent := false } d c = d)
    ∧ (∀ (base : BackendOptions α)
        (d c : Except I18nextErrorRec I18nextResponse),
        loaderOutcome { base with tanstackQuery := none } d c = d)
    ∧ (∀ (base : BackendOptions α) (tq : TanStackQueryOpts)
        (d c : Except I18nextErrorRec I18nextResponse),
        loaderOutcome
          { base with tanstackQuery := some { tq with enabled := some false } }
          d c = d)
    ∧ (∀ (base : BackendOptions α) (tq : TanStackQueryOpts)
        (d c : Except I18nextErrorRec I18nextResponse),
        loaderOutcome
            { base with
              queryClientPresent := false
              tanstackQuery := some { tq with enabled := some true } } d c
          = loaderOutcome
            { base with tanstackQuery := some { tq with enabled := some false } }
            d c) := by
  refine ⟨fun options => ?_, fun base d c => ?_, fun base d c => ?_,
    fun base tq d c => ?_, fun base tq d c => ?_⟩ <;>
    simp [isTanstackQueryEnabled, loaderOutcome]

/-- C4 counterexample: with a transport-options override supplying
`method: "PUT"`, a present payload yields a PUT request, not POST — the
trailing override spread wins over the payload-derived method. -/
theorem c4_counterexample_method_overridden :
    (buildFetchOptions {} (fun s : String => s)
        { requestOptions := some (.static { method := some "PUT" }) }
        (some "payload")).method = "PUT"
    ∧ ¬ ((buildFetchOptions {} (fun s : String => s)
        { requestOptions := some (.static { method := some "PUT" }) }
        (some "payload")).method = "POST") :=
  ⟨rfl, by decide⟩

/-- C4 amended: when the transport-options override supplies neither a
`method` nor a `body` of its own, a present payload yields method POST with
the JSON- (or custom-) stringified payload as body, and an absent payload
yields method GET with no body. -/
theorem c4_method_and_body_follow_payload {α : Type} (env : JsEnv)
    (jsonStringify : α → String) (options : BackendOptions α)
    (payload : Option α)
    (hm : (resolveRequestOptions options.requestOptions payload).method = none)
    (hb : (resolveRequestOptions options.requestOptions payload).body = none) :
    (buildFetchOptions env jsonStringify options payload).method
        = (if payload.isSome then "POST" else "GET")
    ∧ (buildFetchOptions env jsonStringify options payload).body
        = payload.map fun p => (options.stringify.getD jsonStringify) p := by
  unfold buildFetchOptions
  constructor <;> simp [hm, hb]

/-- Witness for C4 with empty options: a present payload gives POST with the
stringified payload, an absent payload gives GET with no body. -/
theorem c4_method_and_body_follow_payload_witness :
    ((buildFetchOptions {} (fun s : String => s)
        ({} : BackendOptions String) (some "x")).method = "POST"
      ∧ (buildFetchOptions {} (fun s : String => s)
        ({} : BackendOptions String) (some "x")).body = some "x")
    ∧ ((buildFetchOptions {} (fun s : String => s)
        ({} : BackendOptions String) none).method = "GET"
      ∧ (buildFetchOptions {} (fun s : String => s)
        ({} : BackendOptions String) none).body = none) := by
  constructor
  · have h := c4_method_and_body_follow_payload {} (fun s : String => s)
      ({} : BackendOptions String) (some "x") rfl rfl
    exact ⟨h.1, h.2⟩
  · have h := c4_method_and_body_follow_payload {} (fun s : String => s)
      ({} : BackendOptions String) none rfl rfl
    exact ⟨h.1, h.2⟩

/-- C9 counterexample: with custom headers supplying their own
`Content-Type: text/plain` and a payload present, the built request's
`Content-Type` reads `application/json` — the payload-implied header is
assigned after the custom headers, so the custom headers' value does not
win. -/
theorem c9_counterexample_custom_content_type_loses :
    getHeader
      (buildFetchOptions {} (fun s : String => s)
        { customHeaders := some (.static [("Content-Type", "text/plain")]) }
        (some "payload")).headers "Content-Type" = some "application/json"
    ∧ ¬ (getHeader
      (buildFetchOptions {} (fun s : String => s)
        { customHeaders := some (.static [("Content-Type", "text/plain")]) }
        (some "payload")).headers "Content-Type" = some "text/plain") :=
  ⟨by decide, by decide⟩

/-- C9 amended: for every POST request (payload present), the built headers
read `Content-Type: application/json`, overriding any custom-header
`Content-Type`; except that when the transport-options override carries its
own `headers` object, that object replaces the built headers wholesale and
its own `Content-Type` assignment (if any) is what remains. -/
theorem c9_post_content_type {α : Type} (env : JsEnv)
    (jsonStringify : α → String) (options : BackendOptions α) (p : α) :
    getHeader (buildFetchOptions env jsonStringify options (some p)).headers
        "Content-Type"
      = match (resolveRequestOptions options.requestOptions (some p)).headers
          with
        | some h => getHeader h "Content-Type"
        | none => some "application/json" := by
  unfold buildFetchOptions
  cases hro : (resolveRequestOptions options.requestOptions (some p)).headers
    with
  | some h => simp [hro]
  | none =>
    simp only [hro, Option.getD_none, Option.getD_some, Option.isSome_some,
      if_true, assignHeaders, setHeader, List.append_nil]
    exact getHeader_append_self _ _ _

/-- C7: `requestWithCallback` passes `(null, response)` to the callback on
success; on failure it passes the normalized error's message, plus the
`{status: 0}` sentinel as the second argument exactly when retry was
signaled (retry flag true, or a 5xx status) and `null` otherwise (in
particular for a 4xx status with the retry flag unset). -/
theorem c7_callback_contract :
    (∀ response : I18nextResponse,
      requestWithCallback (.ok response) = (none, some response))
    ∧ (∀ error : I18nextErrorRec,
      requestWithCallback (.error error)
        = (some error.message,
            if retrySignaled error then some { status := 0, data := none }
            else none)) := by
  refine ⟨fun _ => rfl, fun error => ?_⟩
  simp only [requestWithCallback]
  rw [processForCallback_error_eq, processForCallback_retry_eq]

/-- C2: the parse-failure error raised by the query function on a malformed
JSON body is classified by `transformError` as retryable — its message
contains the network term "failed", so the network-error branch fires
before the dedicated SyntaxError branch — contradicting the claim that a
JSON parse failure always classifies as non-retryable. -/
theorem c2_parse_failure_classified_retryable :
    (transformError (parseFailureError "/locales/en/test.json")
        "/locales/en/test.json").retry = true
    ∧ (transformError (parseFailureError "/locales/en/test.json")
        "/locales/en/test.json").message
      = "failed loading /locales/en/test.json: Failed to parse response from /locales/en/test.json" :=
  ⟨by decide, by decide⟩

/-- C1: `transformError` classifies by status — an effective status in
[500,600) yields a retryable error whose message names the URL and status
code; an effective status in [400,500) yields a non-retryable error with
the same message shape; and a raw error without a response or status whose
message contains one of the fixed network-failure terms yields a retryable
error. -/
theorem c1_transform_error_classification (error : RawError) (url : String) :
    (∀ n : Int, effectiveStatus error = some n → 500 ≤ n → n < 600 →
      transformError error url
        = { url := url, status := some n,
            message := "failed loading " ++ url ++ "; status code: "
              ++ toString n,
            retry := true })
    ∧ (∀ n : Int, effectiveStatus error = some n → 400 ≤ n → n < 500 →
      transformError error url
        = { url := url, status := some n,
            message := "failed loading " ++ url ++ "; status code: "
              ++ toString n,
            retry := false })
    ∧ (∀ (m term : String), error.response = none → error.status = none →
        error.message = some m → term ∈ networkErrorTerms →
        strContains m term = true →
        (transformError error url).retry = true) := by
  refine ⟨?_, ?_, ?_⟩
  · intro n heff h5 h6
    have hn : n ≠ 0 := by omega
    have hguard := guard_of_effectiveStatus error n hn heff
    simp only [transformError, hguard, if_true, heff, optGe, optLt,
      statusToString, h5, h6, decide_true_eq_true]
    simp [h5, h6]
  · intro n heff h4 h5
    have hn : n ≠ 0 := by omega
    have hguard := guard_of_effectiveStatus error n hn heff
    have hnot5 : ¬ (500 ≤ n) := by omega
    simp only [transformError, hguard, if_true, heff, optGe, optLt,
      statusToString]
    simp [h4, h5, hnot5]
  · intro m term hresp hstat hmsg hterm hcontains
    have hguard : (error.response.isSome || numTruthy error.status) = false :=
      by simp [hresp, hstat, numTruthy]
    have hlow : strContains (strToLower m) term = true :=
      strContains_toLower_of_strContains m term hterm hcontains
    have hne : m ≠ "" := ne_empty_of_strContains m term hterm hcontains
    have hcond : (strTruthy error.message
        && networkErrorTerms.any
          (fun t => strContains (strToLower (error.message.getD "")) t))
        = true := by
      rw [hmsg]
      simp only [strTruthy, Option.getD_some, Bool.and_eq_true, bne_iff_ne]
      exact ⟨hne, List.any_eq_true.mpr ⟨term, hterm, hlow⟩⟩
    simp only [transformError, hguard, Bool.false_eq_true, if_false,
      transformErrorRest, hcond, if_true]

/-- Witness for C1: a 503 classifies as retryable, a 404 as non-retryable,
and a message containing "network" as retryable. -/
theorem c1_transform_error_classification_witness :
    (transformError { status := some 503 } "/u").retry = true
    ∧ (transformError { status := some 404 } "/u").retry = false
    ∧ (transformError { message := some "network down" } "/u").retry
      = true := by
  refine ⟨?_, ?_, ?_⟩
  · have h := (c1_transform_error_classification { status := some 503 } "/u").1
      503 rfl (by decide) (by decide)
    rw [h]
  · have h :=
      (c1_transform_error_classification { status := some 404 } "/u").2.1
      404 rfl (by decide) (by decide)
    rw [h]
  · exact (c1_transform_error_classification
      { message := some "network down" } "/u").2.2 "network down" "network"
      rfl rfl rfl (by decide) (by decide)

end I18nextBackend
